import Mathlib

/-!
Verification of the Stack Generator conversation-orchestration core.

This file gives a shallow embedding, in Lean, of the parts of the
repository that the specification's claims are about:

* the message/thread data model (`src/lib/types.ts`, `src/lib/dynamodb.ts`,
  `src/db/schema.ts`);
* the DynamoDB thread-store adapter (`createThread`, `getThread`,
  `updateThread`, `updateThreadCost`) with DynamoDB's put/update/ADD
  semantics made explicit as transitions on an item store;
* the two drafts of the `POST /api/message/generate` orchestrator: the
  DynamoDB/Bedrock draft and the Drizzle/Postgres draft
  (`src/pages/api/message/generate.ts`);
* the tool `execute` bodies (`calculate`, `search`, `runJSCode`,
  `getPageContent`).

External collaborators (the LLM provider, the network, `eval`) are
modelled as oracle parameters of type `... -> Except String ...`; a
JavaScript `throw` is modelled as `Except.error`, and a `try/catch`
block as a `match` on that `Except`.  Stateful database code is modelled
by explicit store passing.  All definitions are executable so theorems
about concrete runs can be settled by `decide` / `rfl`.
-/

/-- Role of a chat message, from the `Message` interface in
`src/lib/types.ts` (`'system' | 'user' | 'assistant'`). -/
inductive Role where
  | system
  | user
  | assistant
deriving DecidableEq, Repr

/-- A conversation message, from the `Message` interface in
`src/lib/types.ts`: a role together with the text content. -/
structure Message where
  role : Role
  content : String
deriving DecidableEq, Repr

namespace Dynamo

/-- A DynamoDB item of the `threads` table.  DynamoDB items are
schemaless, so every attribute other than the partition key `id` is
optional; the `Thread` interface of `src/lib/dynamodb.ts` documents
`id`, `userId?`, `title`, `messages`, `createdAt`, `updatedAt`, and
`updateThreadCost` additionally maintains a numeric `cost` attribute.
Timestamps (ISO strings in the source) are modelled as `Nat`. -/
structure Item where
  id : String
  userId : Option String := none
  title : Option String := none
  messages : Option (List Message) := none
  cost : Option Int := none
  createdAt : Option Nat := none
  updatedAt : Option Nat := none
deriving DecidableEq, Repr

/-- The DynamoDB table, keyed by the partition key `id`. -/
abbrev Store := List Item

/-- Point lookup by partition key (the semantics of `GetCommand`). -/
def dynLookup (store : Store) (threadId : String) : Option Item :=
  store.find? (fun it => it.id == threadId)

/-- The semantics of an unconditional DynamoDB `PutCommand`: the item
with the same key is completely replaced if present, otherwise the item
is inserted. -/
def dynPut : Store → Item → Store
  | [], item => [item]
  | it :: rest, item =>
      if it.id = item.id then item :: rest else it :: dynPut rest item

/-- `createThread` from `src/lib/dynamodb.ts`: stamps `createdAt` and
`updatedAt` with the current time and issues an unconditional
`PutCommand` ("If an item with the same key exists, it will be
completely replaced").  There is no condition expression and no failure
branch for key collisions; the function returns the stored data. -/
def createThread (store : Store) (thread : Item) (now : Nat) : Item × Store :=
  let threadData := { thread with createdAt := some now, updatedAt := some now }
  (threadData, dynPut store threadData)

/-- `getThread` from `src/lib/dynamodb.ts`: point lookup; `none` when
the item is missing; when a `userId` is supplied and the stored item
carries a different `userId`, the function throws (modelled as
`Except.error`). -/
def getThread (store : Store) (threadId : String) (userId : Option String) :
    Except String (Option Item) :=
  match dynLookup store threadId with
  | none => Except.ok none
  | some item =>
      match userId with
      | none => Except.ok (some item)
      | some u =>
          if item.userId.isSome && item.userId != some u then
            Except.error "Failed to get thread: Unauthorized access to thread"
          else Except.ok (some item)

/-- JavaScript truthiness of an optional string (`undefined`, `null`
and the empty string are falsy). -/
def truthy : Option String → Bool
  | some s => s != ""
  | none => false

/-- `updateThread` from `src/lib/dynamodb.ts`: a single `UpdateCommand`
with `SET messages = :messages, updatedAt = :updatedAt`, extended by
`, title = :title` only when the `title` argument is truthy
(`if (title)`), and guarded by the condition expression
`attribute_not_exists(userId) OR userId = :userId` exactly when a
`userId` is supplied.  DynamoDB updates are upserts: a missing item is
created from the key alone. -/
def updateThread (store : Store) (threadId : String) (messages : List Message)
    (title : Option String) (userId : Option String) (now : Nat) :
    Except String (Item × Store) :=
  let base := (dynLookup store threadId).getD { id := threadId }
  let condOk :=
    match userId with
    | none => true
    | some u => base.userId.isNone || base.userId == some u
  if condOk then
    let item :=
      { base with
        id := threadId
        messages := some messages
        updatedAt := some now
        title := if truthy title then title else base.title }
    Except.ok (item, dynPut store item)
  else Except.error "Failed to update thread: The conditional request failed"

/-- The update expression sent by `updateThreadCost`: the atomic `ADD`
action of DynamoDB, not a read-increment-write round trip. -/
def updateThreadCostExpression : String :=
  "ADD cost :costIncrement SET updatedAt = :updatedAt"

/-- `updateThreadCost` from the DynamoDB module: one `UpdateCommand`
whose update expression is `ADD cost :costIncrement SET updatedAt =
:updatedAt`.  DynamoDB applies `ADD` atomically server side (a missing
attribute counts as `0`), so the whole call is a single atomic
transition of the store; the same ownership condition as `updateThread`
applies when a `userId` is supplied.  Returns
`response.Attributes?.cost || 0`. -/
def updateThreadCost (store : Store) (threadId : String) (costIncrement : Int)
    (userId : Option String) (now : Nat) : Except String (Int × Store) :=
  let base := (dynLookup store threadId).getD { id := threadId }
  let condOk :=
    match userId with
    | none => true
    | some u => base.userId.isNone || base.userId == some u
  if condOk then
    let item :=
      { base with
        id := threadId
        cost := some (base.cost.getD 0 + costIncrement)
        updatedAt := some now }
    Except.ok (item.cost.getD 0, dynPut store item)
  else Except.error "Failed to update thread cost: The conditional request failed"

end Dynamo

namespace Bedrock

/-- Configuration consumed by the Bedrock draft of the endpoint
(`config.systemPrompt` from `src/lib/config.ts`). -/
structure Config where
  systemPrompt : String
deriving Repr

/-- Oracles of the Bedrock draft: `freshId` is the `nanoid()` result,
`invokeLlama` the outcome of `invokeBedrockLlama` on a given message
list (the network call behind it is external), `now` the clock.  A
rejected promise is `Except.error`. -/
structure Env where
  freshId : String
  invokeLlama : List Message → Except String String
  now : Nat

/-- Request body of `POST /api/message/generate` in the Bedrock draft:
`{ text, id? }`. -/
structure Request where
  text : String
  id : Option String
deriving DecidableEq, Repr

/-- Success body `{ generatedText, generatedTitle, id }` of the Bedrock
draft, all three fields strings. -/
structure SuccessBody where
  generatedText : String
  generatedTitle : String
  id : String
deriving DecidableEq, Repr

/-- An HTTP response of the Bedrock draft: 200 with the success body,
or an error status with an error message. -/
inductive Result where
  | ok (body : SuccessBody)
  | err (status : Nat) (message : String)
deriving DecidableEq, Repr

/-- Result of one request: the response together with the store as left
behind by the handler. -/
structure Outcome where
  response : Result
  store : Dynamo.Store
deriving DecidableEq, Repr

/-- The message list built by `generateConversationTitle` in
`src/lib/bedrock.ts`: a dedicated system instruction, the first four
non-system messages of the conversation, and a closing user
instruction. -/
def conversationTitleMessages (messages : List Message) : List Message :=
  ⟨Role.system, "You are a helpful assistant that generates concise, descriptive titles for conversations. Generate a title that is 3-7 words long and captures the main topic. Return only the title, nothing else."⟩
    :: ((messages.filter (fun m => m.role != Role.system)).take 4
      ++ [⟨Role.user, "Generate a concise title (3-7 words) for this conversation. Return only the title."⟩])

/-- First character a quote (the `^["']` alternative of the regex). -/
def headIsQuote (s : String) : Bool :=
  match s.data with
  | [] => false
  | c :: _ => c == '"' || c == '\''

/-- Last character a quote (the `["']$` alternative of the regex). -/
def lastIsQuote (s : String) : Bool :=
  match s.data.getLast? with
  | some c => c == '"' || c == '\''
  | none => false

/-- `String.prototype.trim`, implemented structurally over the
character list so concrete runs reduce in the kernel. -/
def jsTrim (s : String) : String :=
  ⟨((s.data.dropWhile Char.isWhitespace).reverse.dropWhile Char.isWhitespace).reverse⟩

/-- The cleanup `title.replace(/^["']|["']$/g, '').trim()` performed by
`generateConversationTitle`: one leading and one trailing quote
character are removed, then surrounding whitespace. -/
def cleanTitle (s : String) : String :=
  let s1 := if headIsQuote s then ⟨s.data.drop 1⟩ else s
  let s2 := if lastIsQuote s1 then ⟨s1.data.dropLast⟩ else s1
  jsTrim s2

/-- `generateConversationTitle` from `src/lib/bedrock.ts`, over the
`invokeBedrockLlama` oracle: builds the title prompt, invokes the
model, cleans the result; a provider failure propagates. -/
def generateConversationTitle (invoke : List Message → Except String String)
    (messages : List Message) : Except String String :=
  (invoke (conversationTitleMessages messages)).map cleanTitle

/-- The generation-and-persistence tail of the Bedrock draft handler,
entered once the thread id is resolved: builds the working history
(fresh system message, stored history, new user message), invokes the
model, decides the title (reuse when the stored title is truthy,
otherwise one `generateConversationTitle` attempt with the fixed
fallback), strips system messages from the history
(`convoHistory.filter(msg => msg.role !== 'system')`), and persists via
`createThread` or `updateThread`. -/
def finishRequest (cfg : Config) (env : Env) (store : Dynamo.Store)
    (text : String) (tid : String) (isNew : Bool) (existing : Option Dynamo.Item) :
    Outcome :=
  let systemObj : Message := ⟨Role.system, cfg.systemPrompt⟩
  let history := match existing with
    | some t => t.messages.getD []
    | none => []
  let convo := systemObj :: (history ++ [⟨Role.user, text⟩])
  match env.invokeLlama convo with
  | Except.error e => ⟨Result.err 500 ("Failed to generate AI response: " ++ e), store⟩
  | Except.ok generatedText =>
      let convo2 := convo ++ [⟨Role.assistant, generatedText⟩]
      let existingTitle := match existing with
        | some t => t.title.getD ""
        | none => ""
      let convoTitle :=
        if existingTitle = "" then
          match generateConversationTitle env.invokeLlama convo2 with
          | Except.ok t => t
          | Except.error _ => "Untitled Conversation"
        else existingTitle
      let messagesToStore := convo2.filter (fun m => m.role != Role.system)
      if isNew then
        let created := Dynamo.createThread store
          { id := tid, title := some convoTitle, messages := some messagesToStore,
            createdAt := some env.now, updatedAt := some env.now } env.now
        ⟨Result.ok ⟨generatedText, convoTitle, tid⟩, created.2⟩
      else
        match Dynamo.updateThread store tid messagesToStore (some convoTitle) none env.now with
        | Except.error e => ⟨Result.err 500 ("Failed to save conversation: " ++ e), store⟩
        | Except.ok (_, store2) => ⟨Result.ok ⟨generatedText, convoTitle, tid⟩, store2⟩

/-- The `POST` handler of the DynamoDB/Bedrock draft of
`/api/message/generate`: resolves or generates the thread id (an empty
`nanoid` result is fatal), loads the stored history (a missing thread
degrades to a new one; an item without a stored `messages` list makes
the history spread throw, surfaced as a 500), then delegates to
`finishRequest`. -/
def POST (cfg : Config) (env : Env) (store : Dynamo.Store) (req : Request) :
    Outcome :=
  if Dynamo.truthy req.id then
    let tid := req.id.getD ""
    match Dynamo.getThread store tid none with
    | Except.error e =>
        ⟨Result.err 500 ("Failed to fetch conversation history: " ++ e), store⟩
    | Except.ok none => finishRequest cfg env store req.text tid true none
    | Except.ok (some t) =>
        match t.messages with
        | none => ⟨Result.err 500 "Failed to fetch conversation history: undefined is not iterable", store⟩
        | some _ => finishRequest cfg env store req.text tid false (some t)
  else
    if env.freshId = "" then
      ⟨Result.err 500 "Failed to generate thread: Error: Failed to generate thread ID", store⟩
    else finishRequest cfg env store req.text env.freshId true none

end Bedrock

namespace Drizzle

/-- A row of the Postgres `threads` table.  The columns are the union
of the two schema drafts in the repository: `src/db/schema.ts`
contributes `id`, `title`, `thread` (the jsonb message list), `cost`,
`isPublic`, `isDev` and the timestamps, its sibling draft contributes
the `email` ownership column consumed by the handler.  Timestamps are
modelled as `Nat`. -/
structure Thread where
  id : String
  title : String
  messages : List Message
  email : Option String
  isPublic : Bool
  isDev : Bool
  cost : Int
  createdAt : Nat
  updatedAt : Nat
deriving DecidableEq, Repr

/-- The Postgres table, keyed by the primary key `id`. -/
abbrev Store := List Thread

/-- Row lookup by primary key (`select ... where eq(threadsTable.id, x)`). -/
def pgLookup (store : Store) (threadId : String) : Option Thread :=
  store.find? (fun t => t.id == threadId)

/-- Modelled from the spec: the configuration surface consumed by the
Drizzle draft of the handler (base system prompt and the per-owner
thread cap `maxThreadsPerUser`).  The Drizzle-era `config` module
itself is absent from the source snapshot (only the Bedrock-era
`src/lib/config.ts` is present), so its values are parameters here; the
provider/model lookup is taken to resolve, as the round-trip scenario
of the spec requires. -/
structure Config where
  systemPrompt : String
  maxThreadsPerUser : Nat
deriving Repr

/-- Oracles of the Drizzle draft: `freshId` is the `nanoid()` result,
`generateText` the outcome of the ai-sdk `generateText` call on a
message list (the tool loop happens inside the SDK), `now` the clock,
`isDevEnv` the `NODE_ENV === 'development'` flag. -/
structure Env where
  freshId : String
  generateText : List Message → Except String String
  now : Nat
  isDevEnv : Bool

/-- Request body `{ text, id?, isPublic = false }` of the Drizzle
draft.  `text` is an `Option` because the handler never validates its
presence. -/
structure Request where
  text : Option String
  id : Option String
  isPublic : Bool
deriving DecidableEq, Repr

/-- Success body of the Drizzle draft.  The handler serializes the
literal `true` under the `generatedTitle` key (`generatedTitle: true`),
so that field is a JSON boolean, not the title string. -/
structure SuccessBody where
  generatedText : String
  generatedTitle : Bool
  id : String
deriving DecidableEq, Repr

/-- An HTTP response of the Drizzle draft. -/
inductive Result where
  | ok (body : SuccessBody)
  | err (status : Nat) (message : String)
deriving DecidableEq, Repr

/-- Result of one request: the response, the table as left behind by
the handler, and how many `generateText` calls were issued (the main
generation call and the title-generation call each count one). -/
structure Outcome where
  response : Result
  threads : Store
  llmCalls : Nat
deriving DecidableEq, Repr

/-- JavaScript truthiness of the thread id taken from the request body
(`if (!current_thread_id)`): absent and empty string are falsy. -/
def truthyId : Option String → Bool
  | some s => s != ""
  | none => false

/-- Truthiness of the stored `email` column in the ownership check
(`if (userData.email && ...)`). -/
def truthyEmail : Option String → Bool
  | some s => s != ""
  | none => false

/-- The thread-limit error message of the handler (a template literal
over `config.maxThreadsPerUser`). -/
def limitMessage (maxThreads : Nat) : String :=
  "You have reached the maximum limit of " ++ toString maxThreads ++
    " threads. Please delete some threads before creating new ones."

/-- The 400 message produced by the outer catch-all of the handler
(`Invalid request body or server error`); the appended JavaScript
error text is runtime specific and elided. -/
def invalidRequestMessage : String :=
  "Invalid request body or server error"

/-- The message list built by the local `generateTitle` helper of the
Drizzle draft: a title-generation system message, the whole working
history, and a closing user instruction. -/
def generateTitleMessages (convoHistory : List Message) : List Message :=
  ⟨Role.system, "You are a helpful assistant that generates concise, descriptive titles for conversations."⟩
    :: (convoHistory ++ [⟨Role.user, "Please generate a concise title for this conversation."⟩])

/-- The persistence tail of the Drizzle handler.  With the loaded row
present, `db.update` rewrites `title`, `thread` (the whole working
history, system message included), `updatedAt` and `isDev` in place;
with the row absent (an id that referenced a missing thread) the
handler inserts a fresh row under the supplied id.  On success it
responds 200 with `generatedText`, the literal `true` under
`generatedTitle`, and the id. -/
def persistPhase (env : Env) (ue : Option String) (isPublic : Bool)
    (store : Store) (tid : String) (userData : Option Thread)
    (generatedText : String) (convoTitle : String) (convo2 : List Message)
    (llmCalls : Nat) : Outcome :=
  match userData with
  | some _ =>
      let store2 := store.map (fun t =>
        if t.id == tid then
          { t with title := convoTitle, messages := convo2,
                   updatedAt := env.now, isDev := env.isDevEnv }
        else t)
      ⟨Result.ok ⟨generatedText, true, tid⟩, store2, llmCalls⟩
  | none =>
      let newThread : Thread :=
        { id := tid, title := convoTitle, messages := convo2, email := ue,
          isPublic := isPublic, isDev := env.isDevEnv, cost := 0,
          createdAt := env.now, updatedAt := env.now }
      ⟨Result.ok ⟨generatedText, true, tid⟩, store ++ [newThread], llmCalls⟩

/-- The generation phase of the Drizzle handler, entered with the
working history loaded.  A missing `text` makes the
`userPrompt.length` log right after the push throw, so the outer
catch-all answers 400 with the mutations so far kept and no model call
issued.  Otherwise the user message is appended, `generateText` is
invoked (a failure aborts with 500 and no persistence), the assistant
turn is appended, and the title is reused when the loaded row already
has a truthy one, else generated once with the fixed fallback. -/
def generatePhase (env : Env) (ue : Option String)
    (req : Request) (store : Store) (tid : String)
    (userData : Option Thread) (convoBase : List Message) : Outcome :=
  match req.text with
  | none => ⟨Result.err 400 invalidRequestMessage, store, 0⟩
  | some userPrompt =>
      let convo := convoBase ++ [⟨Role.user, userPrompt⟩]
      match env.generateText convo with
      | Except.error e =>
          ⟨Result.err 500 ("Failed to generate AI response: " ++ e), store, 1⟩
      | Except.ok generatedText =>
          let convo2 := convo ++ [⟨Role.assistant, generatedText⟩]
          let existingTitle := match userData with
            | some t => t.title
            | none => ""
          if existingTitle = "" then
            let convoTitle :=
              match env.generateText (generateTitleMessages convo2) with
              | Except.ok t => t
              | Except.error _ => "Untitled Conversation"
            persistPhase env ue req.isPublic store tid userData generatedText
              convoTitle convo2 2
          else
            persistPhase env ue req.isPublic store tid userData generatedText
              existingTitle convo2 1

/-- The history-loading phase of the Drizzle handler: the row under the
resolved id is fetched; when found, the ownership check
`userData.email && userData.email !== user_email` answers 403 before
any model call (note that `isPublic` is not consulted here), otherwise
the stored messages are loaded behind a fresh system message; when not
found the history is the system message alone. -/
def loadPhase (cfg : Config) (env : Env) (ue : Option String)
    (req : Request) (store : Store) (tid : String) : Outcome :=
  let systemObj : Message := ⟨Role.system, cfg.systemPrompt⟩
  match pgLookup store tid with
  | some userData =>
      if truthyEmail userData.email && userData.email != ue then
        ⟨Result.err 403 "Unauthorized access to thread", store, 0⟩
      else
        generatePhase env ue req store tid (some userData)
          (systemObj :: userData.messages)
  | none => generatePhase env ue req store tid none [systemObj]

/-- The new-thread branch of the Drizzle handler: an empty `nanoid`
result or a primary-key collision on insert surface as 500; otherwise
an empty-history row owned by the caller is inserted before any model
call and the handler continues against the grown table. -/
def createFresh (cfg : Config) (env : Env) (ue : Option String)
    (req : Request) (store : Store) : Outcome :=
  if env.freshId = "" then
    ⟨Result.err 500 "Failed to generate thread: Error: Failed to generate thread ID", store, 0⟩
  else if (pgLookup store env.freshId).isSome then
    ⟨Result.err 500 "Failed to generate thread: duplicate key value violates unique constraint", store, 0⟩
  else
    let newThread : Thread :=
      { id := env.freshId, title := "", messages := [], email := ue,
        isPublic := req.isPublic, isDev := env.isDevEnv, cost := 0,
        createdAt := env.now, updatedAt := env.now }
    loadPhase cfg env ue req (store ++ [newThread]) env.freshId

/-- The `POST` handler of the Drizzle draft of
`/api/message/generate` (`src/pages/api/message/generate.ts`).
`auth` models `locals.auth`: `none` when absent (401), otherwise the
caller identity `user_email` (itself optional).  When the request
carries no truthy id, the per-owner thread count is checked against
`config.maxThreadsPerUser` before the id is generated, before the row
is inserted, and before any model call; unowned callers skip the
check. -/
def POST (cfg : Config) (env : Env) (auth : Option (Option String))
    (store : Store) (req : Request) : Outcome :=
  match auth with
  | none => ⟨Result.err 401 "Authentication required", store, 0⟩
  | some ue =>
      if truthyId req.id then
        loadPhase cfg env ue req store (req.id.getD "")
      else
        match ue with
        | some e =>
            let userThreads := store.filter (fun t => t.email == some e)
            if cfg.maxThreadsPerUser ≤ userThreads.length then
              ⟨Result.err 400 (limitMessage cfg.maxThreadsPerUser), store, 0⟩
            else createFresh cfg env (some e) req store
        | none => createFresh cfg env none req store

end Drizzle

namespace Tools

/-- The inner `result` object of the calculate tool's return value:
`success`, and either the numeric `result` (here `value`) or an
`error` message, plus the echoed `operation`. -/
structure CalcResult where
  success : Bool
  value : Option ℚ
  error : Option String
  operation : String
deriving DecidableEq, Repr

/-- The full return value of the calculate tool's `execute`:
`message` plus the inner result object. -/
structure CalcResponse where
  message : String
  result : CalcResult
deriving DecidableEq, Repr

/-- The `operationReplacements` lookup of the calculate tool, applied
after lowercasing: arithmetic symbols are mapped onto operation names
(the square-root key appears in the source as the bytes rendered
`âˆš`). -/
def replaceOperation (op : String) : String :=
  if op = "+" then "add"
  else if op = "-" then "subtract"
  else if op = "*" then "multiply"
  else if op = "/" then "divide"
  else if op = "^" then "power"
  else if op = "âˆš" then "sqrt"
  else if op = "%" then "modulo"
  else op

/-- `String.prototype.toLowerCase`, implemented structurally over the
character list so concrete runs reduce in the kernel. -/
def jsToLower (s : String) : String :=
  ⟨s.data.map Char.toLower⟩

/-- `operation.toLowerCase()` followed by the replacement table. -/
def normalizeOperation (operation : String) : String :=
  replaceOperation (jsToLower operation)

/-- JavaScript float-to-integer truncation toward zero. -/
def jsTrunc (q : ℚ) : Int :=
  if 0 ≤ q then ⌊q⌋ else ⌈q⌉

/-- The JavaScript `%` remainder (sign of the dividend); only reached
with a nonzero divisor. -/
def jsMod (a b : ℚ) : ℚ :=
  a - b * (jsTrunc (a / b) : ℚ)

/-- `Math.round`: floor of the argument plus one half. -/
def jsRound (q : ℚ) : Int :=
  ⌊q + 1 / 2⌋

/-- The `try` body of the calculate tool's `execute`
(`src` draft `calculateTool`): the switch over the normalized
operation, with every guard that the source `throw`s on modelled as
`Except.error` carrying the thrown message.  The operands are
JavaScript numbers; they are modelled as rationals, and `Math.pow` and
`Math.sqrt` — whose values the control flow never inspects — are
oracle parameters. -/
def calcTryBody (jsPow : ℚ → ℚ → ℚ) (jsSqrt : ℚ → ℚ)
    (operation : String) (a : ℚ) (b : Option ℚ) : Except String ℚ :=
  let op := normalizeOperation operation
  if op = "add" then
    match b with
    | none => Except.error "Addition requires two operands"
    | some bv => Except.ok (a + bv)
  else if op = "subtract" then
    match b with
    | none => Except.error "Subtraction requires two operands"
    | some bv => Except.ok (a - bv)
  else if op = "multiply" then
    match b with
    | none => Except.error "Multiplication requires two operands"
    | some bv => Except.ok (a * bv)
  else if op = "divide" then
    match b with
    | none => Except.error "Division requires two operands"
    | some bv =>
        if bv = 0 then Except.error "Division by zero is not allowed"
        else Except.ok (a / bv)
  else if op = "power" then
    match b with
    | none => Except.error "Power operation requires two operands"
    | some bv => Except.ok (jsPow a bv)
  else if op = "sqrt" then
    if a < 0 then Except.error "Cannot calculate square root of negative number"
    else Except.ok (jsSqrt a)
  else if op = "modulo" then
    match b with
    | none => Except.error "Modulo requires two operands"
    | some bv =>
        if bv = 0 then Except.error "Modulo by zero is not allowed"
        else Except.ok (jsMod a bv)
  else if op = "abs" then Except.ok |a|
  else if op = "ceil" then Except.ok (⌈a⌉ : ℚ)
  else if op = "floor" then Except.ok (⌊a⌋ : ℚ)
  else if op = "round" then Except.ok (jsRound a : ℚ)
  else Except.error ("Unknown operation: " ++ op)

/-- The calculate tool's `execute`: the `try` body wrapped by the
`catch` that converts any thrown error into a returned failure object
(success branch echoes the normalized operation, failure branch the
original one, as in the source). -/
def calculateExecute (jsPow : ℚ → ℚ → ℚ) (jsSqrt : ℚ → ℚ)
    (operation : String) (a : ℚ) (b : Option ℚ) : CalcResponse :=
  match calcTryBody jsPow jsSqrt operation a b with
  | Except.ok result =>
      ⟨"Calculation completed successfully",
        ⟨true, some result, none, normalizeOperation operation⟩⟩
  | Except.error e =>
      ⟨"Calculation failed", ⟨false, none, some e, operation⟩⟩

/-- The inner `result` object of the search tool's return value. -/
structure SearchResult (α : Type) where
  searchResult : α
deriving DecidableEq, Repr

/-- The return value of the search tool's `execute`. -/
structure SearchResponse (α : Type) where
  message : String
  result : SearchResult α
deriving DecidableEq, Repr

/-- The search tool's `execute` (`src/lib/tools/search.ts`): it awaits
`exa.getContents` — here the oracle argument, with the payload type
abstract since the body never inspects it — and wraps the payload.
The body has no `try`/`catch`, so a rejected external call propagates
out of `execute` unchanged. -/
def searchExecute {α : Type} (getContents : Except String α) :
    Except String (SearchResponse α) :=
  match getContents with
  | Except.error e => Except.error e
  | Except.ok searchResult => Except.ok ⟨"Search completed", ⟨searchResult⟩⟩

/-- Substring test (`String.prototype.includes`) via `splitOn`. -/
def jsIncludes (s pat : String) : Bool :=
  2 ≤ (s.splitOn pat).length

/-- The line pipeline of the runJSCode tool: split on newlines (the
source guards the split behind an `includes` check), split each line on
semicolons, flatten, trim. -/
def lineSegments (code : String) : List String :=
  ((if code.contains '\n' then code.splitOn "\n" else [code]).flatMap
      (fun line => if line.contains ';' then line.splitOn ";" else [line])).map
    (fun line => line.trim)

/-- The `lineReplacements` screen of the runJSCode tool: a line is
dropped when it starts with `import ` or contains `import(`. -/
def isImportLine (line : String) : Bool :=
  line.startsWith "import " || jsIncludes line "import("

/-- The surviving lines: the import screen maps offending lines to
`null` and the final `.filter(line => line)` drops both those and
empty strings. -/
def keptLines (code : String) : List String :=
  (lineSegments code).filter (fun line => !isImportLine line && line != "")

/-- The last-line adjustment of the runJSCode tool: when the last
surviving line does not contain `return`, it is prefixed with
`return `. -/
def ranCode (code : String) : List String :=
  let kept := keptLines code
  match kept.getLast? with
  | some last =>
      if !jsIncludes last "return" then kept.dropLast ++ ["return " ++ last]
      else kept
  | none => kept

/-- The string handed to `Function(...)` by the runJSCode tool. -/
def joinedCode (code : String) : String :=
  String.intercalate ";" (ranCode code)

/-- The return value of the runJSCode tool's `execute`. -/
structure RunJSResponse (α : Type) where
  message : String
  codeResult : α
  ranCode : List String
deriving DecidableEq, Repr

/-- The runJSCode tool's `execute` (`src/lib/tools/runJSCode.ts`): the
pure line pipeline above followed by `await Function(joinedCode)()`,
modelled by the `evalJS` oracle.  The body has no `try`/`catch`, so a
throwing evaluation propagates out of `execute` unchanged. -/
def runJSCodeExecute {α : Type} (evalJS : String → Except String α)
    (code : String) : Except String (RunJSResponse α) :=
  match evalJS (joinedCode code) with
  | Except.error e => Except.error e
  | Except.ok codeResult =>
      Except.ok ⟨"JavaScript code executed", codeResult, ranCode code⟩

/-- A fetched page as projected by the getPageContent tool. -/
structure Page where
  url : String
  title : String
  text : String
  author : String
  publishedDate : String
deriving DecidableEq, Repr

/-- The three return shapes of the getPageContent tool's `execute`. -/
inductive PageResponse where
  | failure (message : String) (error : String)
  | keyMissing (status : String) (message : String)
  | success (message : String) (count : Nat) (pages : List Page)
deriving DecidableEq, Repr

/-- The getPageContent tool's `execute`
(`src/lib/tools/getPageContent.ts`): empty and oversized URL lists and
a missing API key return early; the external `exa.getContents` call is
the oracle, and — unlike the search tool — its failure is caught and
converted into a returned failure object. -/
def getPageContentExecute (apiKeyPresent : Bool)
    (getContents : Except String (List Page)) (urls : List String)
    (_includeText : Bool) : PageResponse :=
  if urls.length = 0 then
    PageResponse.failure "No URLs provided" "URLs array is empty"
  else if 10 < urls.length then
    PageResponse.failure "Too many URLs" "Maximum 10 URLs allowed per request"
  else if !apiKeyPresent then
    PageResponse.keyMissing "error" "Error API KEY EXASEARCH_API_KEY not found in ENV"
  else
    match getContents with
    | Except.error e => PageResponse.failure "Failed to fetch page content" e
    | Except.ok results =>
        PageResponse.success
          ("Successfully fetched content from " ++ toString results.length ++ " URL(s)")
          results.length results

end Tools

/-! ## Helper lemmas for the store layer and the Bedrock handler -/

/-- Messages stored under a given thread id in the DynamoDB table. -/
def storedMessages (store : Dynamo.Store) (threadId : String) : List Message :=
  ((Dynamo.dynLookup store threadId).bind (fun it => it.messages)).getD []

/-- An arbitrary serialization of `n` concurrent `addCost(id, 1)`
invocations.  Each `updateThreadCost` call is a single `UpdateCommand`
whose `ADD` action DynamoDB applies atomically server side, so every
interleaving of `n` concurrent calls is some sequential chain of these
transitions; as the calls are identical, every such chain is this
iteration. -/
def iterateAddCost (store : Dynamo.Store) (threadId : String) (now : Nat) :
    Nat → Dynamo.Store
  | 0 => store
  | n + 1 =>
      match Dynamo.updateThreadCost (iterateAddCost store threadId now n)
          threadId 1 none now with
      | Except.ok (_, store2) => store2
      | Except.error _ => iterateAddCost store threadId now n

theorem Dynamo.dynLookup_dynPut (store : Store) (item : Item) (threadId : String) :
    dynLookup (dynPut store item) threadId =
      if threadId = item.id then some item else dynLookup store threadId := by
  induction store with
  | nil =>
      simp only [dynPut, dynLookup, List.find?]
      by_cases h : threadId = item.id
      · have hb : (item.id == threadId) = true := by simp [beq_iff_eq, h]
        simp [hb, h]
      · have hb : (item.id == threadId) = false := by
          simp only [beq_eq_false_iff_ne, ne_eq]
          exact fun he => h he.symm
        simp [hb, h]
  | cons it rest ih =>
      by_cases hid : it.id = item.id
      · simp only [dynPut, if_pos hid, dynLookup, List.find?]
        by_cases h : threadId = item.id
        · have hb : (item.id == threadId) = true := by simp [beq_iff_eq, h]
          simp [hb, h]
        · have hb : (item.id == threadId) = false := by
            simp only [beq_eq_false_iff_ne, ne_eq]
            exact fun he => h he.symm
          have hb2 : (it.id == threadId) = false := by
            simp only [beq_eq_false_iff_ne, ne_eq]
            exact fun he => h (hid.symm.trans he).symm
          simp [hb, hb2, h, dynLookup]
      · simp only [dynPut, if_neg hid, dynLookup, List.find?]
        by_cases hit : it.id = threadId
        · have hb : (it.id == threadId) = true := by simp [beq_iff_eq, hit]
          have h : ¬ threadId = item.id := fun he => hid (hit.trans he)
          simp [hb, h]
        · have hb : (it.id == threadId) = false := by
            simp only [beq_eq_false_iff_ne, ne_eq]
            exact hit
          simpa [hb, dynLookup] using ih

theorem getThread_no_user (store : Dynamo.Store) (threadId : String) :
    Dynamo.getThread store threadId none
      = Except.ok (Dynamo.dynLookup store threadId) := by
  cases h : Dynamo.dynLookup store threadId <;> simp [Dynamo.getThread, h]

theorem updateThread_no_user (store : Dynamo.Store) (threadId : String)
    (messages : List Message) (title : Option String) (now : Nat) :
    Dynamo.updateThread store threadId messages title none now =
      (let base := (Dynamo.dynLookup store threadId).getD { id := threadId }
       let item : Dynamo.Item :=
         { base with
             id := threadId
             messages := some messages
             updatedAt := some now
             title := if Dynamo.truthy title then title else base.title }
       Except.ok (item, Dynamo.dynPut store item)) := rfl

/-- Every success of the Bedrock handler's generation tail persists,
under the resolved thread id (which is also the id of the response
body), an item whose message list is a `filter` keeping only
non-system roles. -/
theorem bedrock_finish_stored (cfg : Bedrock.Config) (env : Bedrock.Env)
    (store : Dynamo.Store) (text tid : String) (isNew : Bool)
    (existing : Option Dynamo.Item) (body : Bedrock.SuccessBody)
    (h : (Bedrock.finishRequest cfg env store text tid isNew existing).response
        = Bedrock.Result.ok body) :
    body.id = tid ∧
      ∃ item : Dynamo.Item,
        (Bedrock.finishRequest cfg env store text tid isNew existing).store
            = Dynamo.dynPut store item ∧
        item.id = tid ∧
        ∃ msgs : List Message,
          item.messages = some (msgs.filter (fun m => m.role != Role.system)) := by
  revert h
  simp only [Bedrock.finishRequest]
  split
  next e heq =>
    intro h
    simp at h
  next g heq =>
    cases isNew with
    | true =>
        intro h
        simp only [if_true, Dynamo.createThread, Bedrock.Result.ok.injEq] at h ⊢
        refine ⟨by rw [← h], ?_⟩
        exact ⟨_, rfl, rfl, _, rfl⟩
    | false =>
        intro h
        simp only [Bool.false_eq_true, if_false, updateThread_no_user,
          Bedrock.Result.ok.injEq] at h ⊢
        refine ⟨by rw [← h], ?_⟩
        exact ⟨_, rfl, rfl, _, rfl⟩

/-! ## C1: the persisted history and the injected system message -/

/-- C1 (amended).  In the DynamoDB/Bedrock draft of the endpoint the
claim holds: after every successful generate call the message list
stored for the returned thread id contains no system-role turn — the
handler filters `msg.role !== 'system'` out of the working history
before `createThread`/`updateThread`, so the per-request system prompt
is never persisted.  (The Drizzle draft of the same endpoint instead
persists the whole working history with the synthesized system message
at its head; see the counterexample.) -/
theorem claim1_no_system_message_persisted
    (cfg : Bedrock.Config) (env : Bedrock.Env) (store : Dynamo.Store)
    (req : Bedrock.Request) (body : Bedrock.SuccessBody)
    (h : (Bedrock.POST cfg env store req).response = Bedrock.Result.ok body) :
    ∀ m ∈ storedMessages (Bedrock.POST cfg env store req).store body.id,
      m.role ≠ Role.system := by
  have main : ∀ (text tid : String) (isNew : Bool) (existing : Option Dynamo.Item),
      (Bedrock.finishRequest cfg env store text tid isNew existing).response
          = Bedrock.Result.ok body →
      ∀ m ∈ storedMessages
          (Bedrock.finishRequest cfg env store text tid isNew existing).store body.id,
        m.role ≠ Role.system := by
    intro text tid isNew existing h2 m hm
    obtain ⟨hbid, item, hstore, hiid, msgs, hmsg⟩ :=
      bedrock_finish_stored cfg env store text tid isNew existing body h2
    rw [hbid, hstore] at hm
    unfold storedMessages at hm
    rw [Dynamo.dynLookup_dynPut, hiid] at hm
    simp only [eq_self_iff_true, if_true, Option.some_bind, hmsg, Option.getD_some,
      List.mem_filter, bne_iff_ne, ne_eq] at hm
    exact hm.2
  by_cases hidt : Dynamo.truthy req.id = true
  · rcases hlk : Dynamo.dynLookup store (req.id.getD "") with _ | t
    · have hP : Bedrock.POST cfg env store req
          = Bedrock.finishRequest cfg env store req.text (req.id.getD "") true none := by
        simp [Bedrock.POST, hidt, getThread_no_user, hlk]
      rw [hP] at h ⊢
      exact main _ _ _ _ h
    · rcases hms : t.messages with _ | ms
      · exfalso
        have hP : (Bedrock.POST cfg env store req).response
            = Bedrock.Result.err 500
                "Failed to fetch conversation history: undefined is not iterable" := by
          simp [Bedrock.POST, hidt, getThread_no_user, hlk, hms]
        rw [hP] at h
        simp at h
      · have hP : Bedrock.POST cfg env store req
            = Bedrock.finishRequest cfg env store req.text (req.id.getD "") false (some t) := by
          simp [Bedrock.POST, hidt, getThread_no_user, hlk, hms]
        rw [hP] at h ⊢
        exact main _ _ _ _ h
  · by_cases hf : env.freshId = ""
    · exfalso
      have hP : (Bedrock.POST cfg env store req).response
          = Bedrock.Result.err 500
              "Failed to generate thread: Error: Failed to generate thread ID" := by
        simp [Bedrock.POST, hidt, hf]
      rw [hP] at h
      simp at h
    · have hP : Bedrock.POST cfg env store req
          = Bedrock.finishRequest cfg env store req.text env.freshId true none := by
        simp [Bedrock.POST, hidt, hf]
      rw [hP] at h ⊢
      exact main _ _ _ _ h

theorem claim1_witness :
    (Bedrock.POST ⟨"SP"⟩ ⟨"t1", fun _ => Except.ok "resp", 7⟩ []
        ⟨"hi", none⟩).response = Bedrock.Result.ok ⟨"resp", "resp", "t1"⟩ ∧
      (⟨Role.user, "hi"⟩ : Message).role ≠ Role.system :=
  ⟨by decide,
    claim1_no_system_message_persisted ⟨"SP"⟩ ⟨"t1", fun _ => Except.ok "resp", 7⟩ []
      ⟨"hi", none⟩ ⟨"resp", "resp", "t1"⟩ (by decide) ⟨Role.user, "hi"⟩ (by decide)⟩

/-- C1 (counterexample).  A successful run of the Drizzle draft of the
handler — new thread, text `hi`, model answer `resp` — persists the
list `[system, user, assistant]`: the stored history *does* contain the
injected system message, refuting the claim as stated. -/
theorem claim1_counterexample :
    (Drizzle.POST ⟨"SP", 5⟩ ⟨"t1", fun _ => Except.ok "resp", 7, false⟩ (some none) []
        ⟨some "hi", none, false⟩).response
      = Drizzle.Result.ok ⟨"resp", true, "t1"⟩ ∧
    (Drizzle.POST ⟨"SP", 5⟩ ⟨"t1", fun _ => Except.ok "resp", 7, false⟩ (some none) []
        ⟨some "hi", none, false⟩).threads.map (fun t => t.messages.map Message.role)
      = [[Role.system, Role.user, Role.assistant]] := by
  decide

/-! ## C2: append-only, order-preserving, exactly two new turns -/

/-- C2 (amended).  In the DynamoDB/Bedrock draft of the endpoint the
claim holds: for a valid call against an existing thread whose stored
history carries no system turn (the invariant that draft itself
maintains), the stored list after the call is exactly the prior list
extended with the new user turn and the new assistant turn, so the
count grows by exactly 2 and the prior messages are unchanged and in
order.  (The Drizzle draft instead persists a fresh system message in
front, growing the stored count by 3; see the counterexample.) -/
theorem claim2_append_exactly_two
    (cfg : Bedrock.Config) (env : Bedrock.Env) (store : Dynamo.Store)
    (req : Bedrock.Request) (tid g : String) (t : Dynamo.Item) (ms : List Message)
    (hid : req.id = some tid) (hne : tid ≠ "")
    (hlk : Dynamo.dynLookup store tid = some t)
    (hm : t.messages = some ms)
    (hsys : ∀ m ∈ ms, m.role ≠ Role.system)
    (hllm : ∀ msgs, env.invokeLlama msgs = Except.ok g) :
    storedMessages (Bedrock.POST cfg env store req).store tid
        = ms ++ [⟨Role.user, req.text⟩, ⟨Role.assistant, g⟩] ∧
      (storedMessages (Bedrock.POST cfg env store req).store tid).length
        = ms.length + 2 ∧
      ∃ body, (Bedrock.POST cfg env store req).response = Bedrock.Result.ok body
        ∧ body.id = tid := by
  have htr : Dynamo.truthy req.id = true := by
    rw [hid]; simp [Dynamo.truthy, bne_iff_ne, hne]
  have hgetD : req.id.getD "" = tid := by rw [hid]; rfl
  have hfil : ms.filter (fun m => m.role != Role.system) = ms :=
    List.filter_eq_self.mpr (fun m hmem => by
      simp only [bne_iff_ne, ne_eq, decide_eq_true_eq]
      exact hsys m hmem)
  have hP : Bedrock.POST cfg env store req
      = Bedrock.finishRequest cfg env store req.text tid false (some t) := by
    simp [Bedrock.POST, htr, hgetD, getThread_no_user, hlk, hm]
  rw [hP]
  by_cases ht : t.title.getD "" = ""
  · simp only [Bedrock.finishRequest, hllm, hm, Option.getD_some, ht, if_true,
      Bedrock.generateConversationTitle, Except.map_ok, Bool.false_eq_true, if_false,
      updateThread_no_user]
    refine ⟨?_, ?_, ⟨g, Bedrock.cleanTitle g, tid⟩, rfl, rfl⟩ <;>
      · unfold storedMessages
        rw [Dynamo.dynLookup_dynPut]
        simp [List.filter_append, List.filter_cons, hfil]
  · simp only [Bedrock.finishRequest, hllm, hm, Option.getD_some, ht, if_neg,
      Bool.false_eq_true, if_false, updateThread_no_user]
    refine ⟨?_, ?_, ⟨g, t.title.getD "", tid⟩, rfl, rfl⟩ <;>
      · unfold storedMessages
        rw [Dynamo.dynLookup_dynPut]
        simp [List.filter_append, List.filter_cons, hfil]

theorem claim2_witness :
    storedMessages (Bedrock.POST ⟨"SP"⟩ ⟨"zz", fun _ => Except.ok "d", 7⟩
        [{ id := "t9", title := some "T",
           messages := some [⟨Role.user, "a"⟩, ⟨Role.assistant, "b"⟩] }]
        ⟨"c", some "t9"⟩).store "t9"
      = [⟨Role.user, "a"⟩, ⟨Role.assistant, "b"⟩]
          ++ [⟨Role.user, "c"⟩, ⟨Role.assistant, "d"⟩] ∧
    (storedMessages (Bedrock.POST ⟨"SP"⟩ ⟨"zz", fun _ => Except.ok "d", 7⟩
        [{ id := "t9", title := some "T",
           messages := some [⟨Role.user, "a"⟩, ⟨Role.assistant, "b"⟩] }]
        ⟨"c", some "t9"⟩).store "t9").length
      = ([⟨Role.user, "a"⟩, ⟨Role.assistant, "b"⟩] : List Message).length + 2 ∧
    ∃ body, (Bedrock.POST ⟨"SP"⟩ ⟨"zz", fun _ => Except.ok "d", 7⟩
        [{ id := "t9", title := some "T",
           messages := some [⟨Role.user, "a"⟩, ⟨Role.assistant, "b"⟩] }]
        ⟨"c", some "t9"⟩).response = Bedrock.Result.ok body ∧ body.id = "t9" :=
  claim2_append_exactly_two ⟨"SP"⟩ ⟨"zz", fun _ => Except.ok "d", 7⟩
    [{ id := "t9", title := some "T",
       messages := some [⟨Role.user, "a"⟩, ⟨Role.assistant, "b"⟩] }]
    ⟨"c", some "t9"⟩ "t9" "d"
    { id := "t9", title := some "T",
      messages := some [⟨Role.user, "a"⟩, ⟨Role.assistant, "b"⟩] }
    [⟨Role.user, "a"⟩, ⟨Role.assistant, "b"⟩]
    rfl (by decide) (by decide) rfl (by decide) (fun _ => rfl)

/-- C2 (counterexample).  A successful run of the Drizzle draft
against a thread holding 2 stored messages leaves 5 stored messages,
not 2 + 2: the handler persists the whole working history, fresh
system message included. -/
theorem claim2_counterexample :
    (Drizzle.POST ⟨"SP", 5⟩ ⟨"zz", fun _ => Except.ok "d", 7, false⟩ (some none)
        [⟨"t9", "T", [⟨Role.user, "a"⟩, ⟨Role.assistant, "b"⟩], none, false, false, 0, 0, 0⟩]
        ⟨some "c", some "t9", false⟩).response
      = Drizzle.Result.ok ⟨"d", true, "t9"⟩ ∧
    (Drizzle.pgLookup (Drizzle.POST ⟨"SP", 5⟩ ⟨"zz", fun _ => Except.ok "d", 7, false⟩
        (some none)
        [⟨"t9", "T", [⟨Role.user, "a"⟩, ⟨Role.assistant, "b"⟩], none, false, false, 0, 0, 0⟩]
        ⟨some "c", some "t9", false⟩).threads "t9").map
      (fun t => t.messages.length) = some 5 ∧
    ¬ ((Drizzle.pgLookup (Drizzle.POST ⟨"SP", 5⟩ ⟨"zz", fun _ => Except.ok "d", 7, false⟩
        (some none)
        [⟨"t9", "T", [⟨Role.user, "a"⟩, ⟨Role.assistant, "b"⟩], none, false, false, 0, 0, 0⟩]
        ⟨some "c", some "t9", false⟩).threads "t9").map
      (fun t => t.messages.length) = some (2 + 2)) := by
  decide

/-! ## C3: the response shape of a successful generate call -/

/-- C3 (evidence of the defect).  A successful run of the Drizzle
handler computes the title (here the model's `resp`, visible in the
persisted row) but serializes the literal boolean `true` under the
`generatedTitle` response key — the `SuccessBody.generatedTitle` field
of this draft is a `Bool` — instead of the thread's title string. -/
theorem claim3_generated_title_literal_true :
    (Drizzle.POST ⟨"SP", 5⟩ ⟨"t1", fun _ => Except.ok "resp", 7, false⟩ (some none) []
        ⟨some "hi", none, false⟩).response
      = Drizzle.Result.ok
          { generatedText := "resp", generatedTitle := true, id := "t1" } ∧
    (Drizzle.pgLookup (Drizzle.POST ⟨"SP", 5⟩ ⟨"t1", fun _ => Except.ok "resp", 7, false⟩
        (some none) [] ⟨some "hi", none, false⟩).threads "t1").map
      (fun t => t.title) = some "resp" := by
  decide

/-! ## C4: ownership mismatch rejects before any work -/

/-- C4.  A generate request whose caller identity differs from the
non-empty owner of the addressed, existing, non-public thread is
answered 403 `Unauthorized access to thread`, the table is returned
exactly as it was (no message or `updatedAt` mutation), and no model
call was issued — the check sits before the generation phase in the
handler. -/
theorem claim4_ownership_rejected
    (cfg : Drizzle.Config) (env : Drizzle.Env) (ue : Option String)
    (store : Drizzle.Store) (req : Drizzle.Request) (tid owner : String)
    (t : Drizzle.Thread)
    (h1 : req.id = some tid) (h2 : tid ≠ "")
    (h3 : Drizzle.pgLookup store tid = some t)
    (h4 : t.email = some owner) (h5 : owner ≠ "")
    (h6 : some owner ≠ ue)
    (_h7 : t.isPublic = false) :
    Drizzle.POST cfg env (some ue) store req
      = ⟨Drizzle.Result.err 403 "Unauthorized access to thread", store, 0⟩ := by
  have htr : Drizzle.truthyId req.id = true := by
    rw [h1]; simp [Drizzle.truthyId, bne_iff_ne, h2]
  have hgetD : req.id.getD "" = tid := by rw [h1]; rfl
  simp [Drizzle.POST, htr, hgetD, Drizzle.loadPhase, h3, Drizzle.truthyEmail,
    h4, bne_iff_ne, h5, h6]

theorem claim4_witness :
    Drizzle.POST ⟨"SP", 5⟩ ⟨"t1", fun _ => Except.ok "r", 7, false⟩ (some (some "b@x"))
        [⟨"t9", "T", [⟨Role.user, "a"⟩], some "a@x", false, false, 0, 3, 3⟩]
        ⟨some "c", some "t9", false⟩
      = ⟨Drizzle.Result.err 403 "Unauthorized access to thread",
         [⟨"t9", "T", [⟨Role.user, "a"⟩], some "a@x", false, false, 0, 3, 3⟩], 0⟩ :=
  claim4_ownership_rejected ⟨"SP", 5⟩ ⟨"t1", fun _ => Except.ok "r", 7, false⟩
    (some "b@x") [⟨"t9", "T", [⟨Role.user, "a"⟩], some "a@x", false, false, 0, 3, 3⟩]
    ⟨some "c", some "t9", false⟩ "t9" "a@x"
    ⟨"t9", "T", [⟨Role.user, "a"⟩], some "a@x", false, false, 0, 3, 3⟩
    rfl (by decide) (by decide) rfl (by decide) (by decide) rfl

/-! ## C7: per-owner thread-count limit -/

/-- C7.  A new-thread request (no truthy id) from an owner whose
thread count already reached `config.maxThreadsPerUser` is rejected
with the 400 limit message, the table is unchanged (no record
created), and no model call was issued — the check precedes id
generation, insertion and generation in the handler. -/
theorem claim7_thread_limit
    (cfg : Drizzle.Config) (env : Drizzle.Env) (e : String)
    (store : Drizzle.Store) (req : Drizzle.Request)
    (h1 : Drizzle.truthyId req.id = false)
    (h2 : cfg.maxThreadsPerUser ≤ (store.filter (fun t => t.email == some e)).length) :
    Drizzle.POST cfg env (some (some e)) store req
      = ⟨Drizzle.Result.err 400 (Drizzle.limitMessage cfg.maxThreadsPerUser),
         store, 0⟩ := by
  simp [Drizzle.POST, h1, h2]

theorem claim7_witness :
    Drizzle.POST ⟨"SP", 5⟩ ⟨"t6", fun _ => Except.ok "r", 7, false⟩ (some (some "e@x"))
        [⟨"a", "", [], some "e@x", false, false, 0, 0, 0⟩,
         ⟨"b", "", [], some "e@x", false, false, 0, 0, 0⟩,
         ⟨"c", "", [], some "e@x", false, false, 0, 0, 0⟩,
         ⟨"d", "", [], some "e@x", false, false, 0, 0, 0⟩,
         ⟨"e", "", [], some "e@x", false, false, 0, 0, 0⟩]
        ⟨some "hi", none, false⟩
      = ⟨Drizzle.Result.err 400 (Drizzle.limitMessage 5),
         [⟨"a", "", [], some "e@x", false, false, 0, 0, 0⟩,
          ⟨"b", "", [], some "e@x", false, false, 0, 0, 0⟩,
          ⟨"c", "", [], some "e@x", false, false, 0, 0, 0⟩,
          ⟨"d", "", [], some "e@x", false, false, 0, 0, 0⟩,
          ⟨"e", "", [], some "e@x", false, false, 0, 0, 0⟩], 0⟩ :=
  claim7_thread_limit ⟨"SP", 5⟩ ⟨"t6", fun _ => Except.ok "r", 7, false⟩ "e@x"
    [⟨"a", "", [], some "e@x", false, false, 0, 0, 0⟩,
     ⟨"b", "", [], some "e@x", false, false, 0, 0, 0⟩,
     ⟨"c", "", [], some "e@x", false, false, 0, 0, 0⟩,
     ⟨"d", "", [], some "e@x", false, false, 0, 0, 0⟩,
     ⟨"e", "", [], some "e@x", false, false, 0, 0, 0⟩]
    ⟨some "hi", none, false⟩ rfl (by decide)

/-! ## C6: absence of text validation -/

theorem pgLookup_append_of_none (s1 s2 : Drizzle.Store) (tid : String)
    (h : Drizzle.pgLookup s1 tid = none) :
    Drizzle.pgLookup (s1 ++ s2) tid = Drizzle.pgLookup s2 tid := by
  unfold Drizzle.pgLookup at *
  rw [List.find?_append, h]
  rfl

theorem map_if_eq_self {α : Type} (l : List α) (q : α → Prop) [DecidablePred q]
    (f : α → α) (h : ∀ x ∈ l, ¬ q x) :
    l.map (fun x => if q x then f x else x) = l := by
  induction l with
  | nil => rfl
  | cons a rest ih =>
      simp only [List.map_cons, if_neg (h a (by simp)), List.cons.injEq, true_and]
      exact ih (fun x hx => h x (by simp [hx]))

/-- C6 (amended).  The handler applies no validation to `text`.  An
empty-string `text` is processed as a normal message: the thread row is
created and persisted, the model is called (twice, counting title
generation), and the call answers 200.  A missing `text` on the no-id
path fails only at the `userPrompt.length` log after the push, so the
generic catch-all answers 400 — but only after the new thread row was
already inserted, with no model call made. -/
theorem claim6_no_validation
    (cfg : Drizzle.Config) (env : Drizzle.Env) (store : Drizzle.Store) (g : String)
    (hf1 : env.freshId ≠ "")
    (hf2 : Drizzle.pgLookup store env.freshId = none)
    (hllm : ∀ ms, env.generateText ms = Except.ok g) :
    Drizzle.POST cfg env (some none) store ⟨none, none, false⟩
      = ⟨Drizzle.Result.err 400 Drizzle.invalidRequestMessage,
         store ++ [⟨env.freshId, "", [], none, false, env.isDevEnv, 0, env.now, env.now⟩],
         0⟩ ∧
    Drizzle.POST cfg env (some none) store ⟨some "", none, false⟩
      = ⟨Drizzle.Result.ok ⟨g, true, env.freshId⟩,
         store ++ [⟨env.freshId, g,
           [⟨Role.system, cfg.systemPrompt⟩, ⟨Role.user, ""⟩, ⟨Role.assistant, g⟩],
           none, false, env.isDevEnv, 0, env.now, env.now⟩],
         2⟩ := by
  have hL : Drizzle.pgLookup
      (store ++ [⟨env.freshId, "", [], none, false, env.isDevEnv, 0, env.now, env.now⟩])
      env.freshId
      = some ⟨env.freshId, "", [], none, false, env.isDevEnv, 0, env.now, env.now⟩ := by
    rw [pgLookup_append_of_none _ _ _ hf2]
    simp [Drizzle.pgLookup]
  have hmap : store.map (fun t =>
      if t.id = env.freshId then
        { t with
            title := g
            messages := [⟨Role.system, cfg.systemPrompt⟩, ⟨Role.user, ""⟩, ⟨Role.assistant, g⟩]
            updatedAt := env.now
            isDev := env.isDevEnv }
      else t) = store := by
    apply map_if_eq_self
    intro x hx
    have h2 := (List.find?_eq_none.mp hf2) x hx
    simpa using h2
  constructor
  · simp [Drizzle.POST, Drizzle.truthyId, Drizzle.createFresh, hf1, hf2, Drizzle.loadPhase,
      hL, Drizzle.truthyEmail, Drizzle.generatePhase]
  · simp [Drizzle.POST, Drizzle.truthyId, Drizzle.createFresh, hf1, hf2, Drizzle.loadPhase,
      hL, Drizzle.truthyEmail, Drizzle.generatePhase, hllm, Drizzle.persistPhase,
      List.map_append, hmap]

theorem claim6_witness :
    Drizzle.POST ⟨"SP", 5⟩ ⟨"t1", fun _ => Except.ok "resp", 7, false⟩ (some none) []
        ⟨none, none, false⟩
      = ⟨Drizzle.Result.err 400 Drizzle.invalidRequestMessage,
         [] ++ [⟨"t1", "", [], none, false, false, 0, 7, 7⟩], 0⟩ ∧
    Drizzle.POST ⟨"SP", 5⟩ ⟨"t1", fun _ => Except.ok "resp", 7, false⟩ (some none) []
        ⟨some "", none, false⟩
      = ⟨Drizzle.Result.ok ⟨"resp", true, "t1"⟩,
         [] ++ [⟨"t1", "resp",
           [⟨Role.system, "SP"⟩, ⟨Role.user, ""⟩, ⟨Role.assistant, "resp"⟩],
           none, false, false, 0, 7, 7⟩], 2⟩ :=
  claim6_no_validation ⟨"SP", 5⟩ ⟨"t1", fun _ => Except.ok "resp", 7, false⟩ [] "resp"
    (by decide) rfl (fun _ => rfl)

/-- C6 (counterexample).  A missing-text request creates a thread
record and then answers 400 (a side effect happened before the
rejection); an empty-text request is not rejected at all — it answers
200 after calling the model.  Both refute the claim that such requests
are rejected as validation errors before any side effect. -/
theorem claim6_counterexample :
    (Drizzle.POST ⟨"SP", 5⟩ ⟨"t1", fun _ => Except.ok "resp", 7, false⟩ (some none) []
        ⟨none, none, false⟩).response
      = Drizzle.Result.err 400 Drizzle.invalidRequestMessage ∧
    (Drizzle.POST ⟨"SP", 5⟩ ⟨"t1", fun _ => Except.ok "resp", 7, false⟩ (some none) []
        ⟨none, none, false⟩).threads.length = 1 ∧
    (Drizzle.POST ⟨"SP", 5⟩ ⟨"t1", fun _ => Except.ok "resp", 7, false⟩ (some none) []
        ⟨some "", none, false⟩).response
      = Drizzle.Result.ok ⟨"resp", true, "t1"⟩ := by
  decide

/-! ## C5: tool failures, caught or propagated -/

/-- C5 (counterexample).  A failing `exa.getContents` call inside the
search tool's `execute` is not caught: `execute` propagates the
rejection unchanged into its caller (the ai-sdk completion loop)
instead of returning a result with an error payload. -/
theorem claim5_counterexample :
    Tools.searchExecute (α := String)
        (Except.error "getaddrinfo ENOTFOUND api.exa.ai")
      = Except.error "getaddrinfo ENOTFOUND api.exa.ai" := rfl

/-- C5 (amended).  Error handling is mixed across the registered
tools: the search tool and the runJSCode tool have no `try`/`catch`
around their external call, so its failure propagates uncaught out of
`execute`; the getPageContent tool catches the failure of the same
external call and converts it into a returned error payload; and the
calculate tool's `execute` is wrapped so it always returns a plain
result — success with no error, or failure carrying an error
message. -/
theorem claim5_mixed_error_handling :
    (∀ e : String,
        Tools.searchExecute (α := String) (Except.error e) = Except.error e) ∧
    (∀ e code : String,
        Tools.runJSCodeExecute (α := String) (fun _ => Except.error e) code
          = Except.error e) ∧
    (∀ e : String, ∀ includeText : Bool,
        Tools.getPageContentExecute true (Except.error e) ["https://x"] includeText
          = Tools.PageResponse.failure "Failed to fetch page content" e) ∧
    (∀ (jsPow : ℚ → ℚ → ℚ) (jsSqrt : ℚ → ℚ) (op : String) (a : ℚ) (b : Option ℚ),
        ((Tools.calculateExecute jsPow jsSqrt op a b).result.success = true ∧
          (Tools.calculateExecute jsPow jsSqrt op a b).result.error = none) ∨
        ((Tools.calculateExecute jsPow jsSqrt op a b).result.success = false ∧
          (Tools.calculateExecute jsPow jsSqrt op a b).result.error ≠ none)) := by
  refine ⟨fun e => rfl, fun e code => rfl, fun e it => rfl, fun jsPow jsSqrt op a b => ?_⟩
  cases h : Tools.calcTryBody jsPow jsSqrt op a b <;>
    simp [Tools.calculateExecute, h]

/-! ## C8: create on an existing id -/

/-- C8 (counterexample).  `createThread` against a table already
holding an item with the same id succeeds — its type has no failure
branch for collisions — and the prior record (title `Old`) is silently
replaced by the new one (title `New`). -/
theorem claim8_counterexample :
    Dynamo.createThread [{ id := "t1", title := some "Old" }]
        { id := "t1", title := some "New" } 9
      = ({ id := "t1", title := some "New", createdAt := some 9, updatedAt := some 9 },
         [{ id := "t1", title := some "New", createdAt := some 9, updatedAt := some 9 }]) := by
  decide

/-- C8 (amended).  `createThread` performs an unconditional DynamoDB
`PutCommand`: whatever the prior table holds, afterwards the key maps
to the freshly stamped record — an existing record under the same id
is silently and completely replaced, never rejected with
`AlreadyExists` — and every other key is untouched. -/
theorem claim8_create_overwrites (store : Dynamo.Store) (thread : Dynamo.Item)
    (now : Nat) (tid : String) :
    Dynamo.dynLookup (Dynamo.createThread store thread now).2 tid
      = if tid = thread.id then
          some { thread with createdAt := some now, updatedAt := some now }
        else Dynamo.dynLookup store tid :=
  Dynamo.dynLookup_dynPut store
    { thread with createdAt := some now, updatedAt := some now } tid

/-! ## C9: atomic cost accumulation -/

/-- `updateThreadCost` without an ownership condition always succeeds,
and is the DynamoDB `ADD`-action update spelled out. -/
theorem updateThreadCost_no_user (store : Dynamo.Store) (threadId : String)
    (costIncrement : Int) (now : Nat) :
    Dynamo.updateThreadCost store threadId costIncrement none now =
      (let base := (Dynamo.dynLookup store threadId).getD { id := threadId }
       let item : Dynamo.Item :=
         { base with
             id := threadId
             cost := some (base.cost.getD 0 + costIncrement)
             updatedAt := some now }
       Except.ok (item.cost.getD 0, Dynamo.dynPut store item)) := rfl

theorem iterateAddCost_lookup (store : Dynamo.Store) (threadId : String)
    (now : Nat) (t : Dynamo.Item)
    (hlk : Dynamo.dynLookup store threadId = some t) :
    ∀ n : Nat, ∃ item : Dynamo.Item,
      Dynamo.dynLookup (iterateAddCost store threadId now n) threadId = some item ∧
        item.cost.getD 0 = t.cost.getD 0 + (n : Int) := by
  intro n
  induction n with
  | zero => exact ⟨t, hlk, by simp⟩
  | succ n ih =>
      obtain ⟨item, hit, hc⟩ := ih
      refine ⟨{ item with
                  id := threadId
                  cost := some (item.cost.getD 0 + 1)
                  updatedAt := some now }, ?_, ?_⟩
      · show Dynamo.dynLookup (iterateAddCost store threadId now (n + 1)) threadId = _
        simp only [iterateAddCost, updateThreadCost_no_user, hit, Option.getD_some]
        rw [Dynamo.dynLookup_dynPut]
        simp
      · simp only [Option.getD_some]
        rw [hc]
        push_cast
        ring

/-- C9.  Cost accumulation is atomic and loses no updates: starting
from any table holding the thread, after any serialization of `n`
concurrent `addCost(id, 1)` calls the stored cost accumulator equals
its prior value plus exactly `n`; and the update is issued as the
single atomic `ADD cost` update expression, not a
read-increment-write round trip. -/
theorem claim9_atomic_cost_accumulation (store : Dynamo.Store)
    (threadId : String) (now : Nat) (t : Dynamo.Item) (n : Nat)
    (hlk : Dynamo.dynLookup store threadId = some t) :
    (Dynamo.dynLookup (iterateAddCost store threadId now n) threadId).map
        (fun it => it.cost.getD 0)
      = some (t.cost.getD 0 + (n : Int)) ∧
    Dynamo.updateThreadCostExpression
      = "ADD cost :costIncrement SET updatedAt = :updatedAt" := by
  obtain ⟨item, hit, hc⟩ := iterateAddCost_lookup store threadId now t hlk n
  exact ⟨by rw [hit]; simp [hc], rfl⟩

theorem claim9_witness :
    (Dynamo.dynLookup (iterateAddCost [{ id := "t1", cost := some 4 }] "t1" 9 3) "t1").map
        (fun it => it.cost.getD 0)
      = some ((4 : Int) + (3 : Nat)) ∧
    Dynamo.updateThreadCostExpression
      = "ADD cost :costIncrement SET updatedAt = :updatedAt" :=
  claim9_atomic_cost_accumulation [{ id := "t1", cost := some 4 }] "t1" 9
    { id := "t1", cost := some 4 } 3 rfl

/-! ## C10: totality of the calculate tool -/

/-- C10.  The calculate tool's `execute` is total: whatever the
operation name and operands (and whatever values the float primitives
`Math.pow`/`Math.sqrt` yield), it returns a result object that is
either a success carrying no error or a failure carrying an error
message — never an uncaught exception; and each of the claim's
enumerated edge inputs — divide by zero, modulo by zero, square root
of a negative, a missing second operand, an unknown operation — yields
`success := false` with the corresponding error message. -/
theorem claim10_calculate_total :
    (∀ (jsPow : ℚ → ℚ → ℚ) (jsSqrt : ℚ → ℚ) (op : String) (a : ℚ) (b : Option ℚ),
        ((Tools.calculateExecute jsPow jsSqrt op a b).result.success = true ∧
          (Tools.calculateExecute jsPow jsSqrt op a b).result.error = none ∧
          (Tools.calculateExecute jsPow jsSqrt op a b).message
            = "Calculation completed successfully") ∨
        ((Tools.calculateExecute jsPow jsSqrt op a b).result.success = false ∧
          (Tools.calculateExecute jsPow jsSqrt op a b).result.error ≠ none ∧
          (Tools.calculateExecute jsPow jsSqrt op a b).message
            = "Calculation failed")) ∧
    (∀ (jsPow : ℚ → ℚ → ℚ) (jsSqrt : ℚ → ℚ) (a : ℚ),
        (Tools.calculateExecute jsPow jsSqrt "divide" a (some 0)).result
          = ⟨false, none, some "Division by zero is not allowed", "divide"⟩) ∧
    (∀ (jsPow : ℚ → ℚ → ℚ) (jsSqrt : ℚ → ℚ) (a : ℚ),
        (Tools.calculateExecute jsPow jsSqrt "modulo" a (some 0)).result
          = ⟨false, none, some "Modulo by zero is not allowed", "modulo"⟩) ∧
    (∀ (jsPow : ℚ → ℚ → ℚ) (jsSqrt : ℚ → ℚ),
        (Tools.calculateExecute jsPow jsSqrt "sqrt" (-1) none).result
          = ⟨false, none, some "Cannot calculate square root of negative number", "sqrt"⟩) ∧
    (∀ (jsPow : ℚ → ℚ → ℚ) (jsSqrt : ℚ → ℚ) (a : ℚ),
        (Tools.calculateExecute jsPow jsSqrt "add" a none).result
          = ⟨false, none, some "Addition requires two operands", "add"⟩) ∧
    (∀ (jsPow : ℚ → ℚ → ℚ) (jsSqrt : ℚ → ℚ) (a : ℚ) (b : Option ℚ),
        (Tools.calculateExecute jsPow jsSqrt "cube" a b).result
          = ⟨false, none, some "Unknown operation: cube", "cube"⟩) := by
  refine ⟨fun jsPow jsSqrt op a b => ?_, fun jsPow jsSqrt a => ?_, fun jsPow jsSqrt a => ?_,
    fun jsPow jsSqrt => ?_, fun jsPow jsSqrt a => ?_, fun jsPow jsSqrt a b => ?_⟩
  · cases h : Tools.calcTryBody jsPow jsSqrt op a b <;>
      simp [Tools.calculateExecute, h]
  · have hz : ((0 : ℚ) = 0) = True := by simp
    simp [Tools.calculateExecute, Tools.calcTryBody, Tools.normalizeOperation,
      Tools.jsToLower, Tools.replaceOperation, hz]
  · have hz : ((0 : ℚ) = 0) = True := by simp
    simp [Tools.calculateExecute, Tools.calcTryBody, Tools.normalizeOperation,
      Tools.jsToLower, Tools.replaceOperation, hz]
  · have hneg : (-1 : ℚ) < 0 := by norm_num
    simp [Tools.calculateExecute, Tools.calcTryBody, Tools.normalizeOperation,
      Tools.jsToLower, Tools.replaceOperation, hneg]
  · simp [Tools.calculateExecute, Tools.calcTryBody, Tools.normalizeOperation,
      Tools.jsToLower, Tools.replaceOperation]
  · cases b <;>
      simp [Tools.calculateExecute, Tools.calcTryBody, Tools.normalizeOperation,
        Tools.jsToLower, Tools.replaceOperation]
